import Mathlib

/-!
Verification of the historical weather store of personal-weather-glimpse
(src/src/services/WeatherService.ts).

Embedding conventions:
* JavaScript numbers on the typed path are idealised as rationals (ℚ);
  the store's arithmetic (sums, divisions) is modelled exactly.
* An ISO-8601 timestamp string is modelled by its instant, an integer
  count of milliseconds (ℤ).  A JS-falsy timestamp (absent field or the
  empty string, which both fail the truthiness tests in the source) is
  modelled as `none`; a present, parseable timestamp as `some t`.
* localStorage holds at most one blob under the fixed key
  `weatherHistoricalData`; on the typed path the store state is
  `Option (List WeatherData)`: `none` when no blob is stored, `some l`
  when the stored blob is the JSON serialisation of the list `l`
  (JSON round-trips the data the service itself writes).
* The untyped path (parsing arbitrary blobs, duck-typed validation) is
  modelled by `JSValue` / `StoredBlob` below.
-/

/-- The WeatherData record of WeatherService.ts.  Field names follow the
source (`Rain` is the source's name for the spec's rainfall field). -/
structure WeatherData where
  temperature : ℚ
  humidity : ℚ
  pressure : ℚ
  gas : ℚ
  dewPoint : ℚ
  cloudBase : ℚ
  Rain : ℚ
  timestamp : Option ℤ
deriving DecidableEq

/-- The store state: the blob under STORAGE_KEY, if any, as the list it
serialises (newest-first). -/
abbrev Store := Option (List WeatherData)

/-- MAX_RECORDS from WeatherService.ts: 7 days at 10-minute intervals. -/
def MAX_RECORDS : Nat := 1008

/-- getHistoricalData on the typed path: a missing blob yields the empty
list; a stored well-formed blob yields its list. -/
def getHistoricalData (st : Store) : List WeatherData := st.getD []

/-- The timestamp defaulting step of saveWeatherReading:
`timestamp: data.timestamp || new Date().toISOString()`. -/
def stampTimestamp (now : ℤ) (d : WeatherData) : WeatherData :=
  { d with timestamp := some (d.timestamp.getD now) }

/-- The body of saveWeatherReading up to and including the
localStorage.setItem call, as an Except: the `writeFails` flag says
whether the serialisation/storage write throws (e.g. quota exceeded),
in which case nothing is persisted.  On success the new blob is the
stamped reading prepended to the old list, truncated to MAX_RECORDS
(`unshift` then `splice(MAX_RECORDS)`). -/
def saveAttempt (now : ℤ) (writeFails : Bool) (st : Store) (data : WeatherData) :
    Except String Store :=
  let historicalData := getHistoricalData st
  let dataWithTimestamp := stampTimestamp now data
  let newData := (dataWithTimestamp :: historicalData).take MAX_RECORDS
  if writeFails then Except.error "storage write failed" else Except.ok (some newData)

/-- saveWeatherReading: the try/catch wrapper around `saveAttempt`.  A
thrown error is caught and logged; the persisted state is then left as
it was. -/
def saveWeatherReading (now : ℤ) (writeFails : Bool) (st : Store) (data : WeatherData) :
    Store :=
  match saveAttempt now writeFails st data with
  | Except.ok st2 => st2
  | Except.error _ => st

/-- The cutoff instant of getDataForPeriod:
`cutoffTime.setHours(cutoffTime.getHours() - hours)`, i.e. the current
instant minus `hours` hours (in milliseconds). -/
def cutoffInstant (now hours : ℤ) : ℤ := now - hours * 3600000

/-- getDataForPeriod: filter the full history, dropping readings with a
falsy timestamp and keeping those whose instant is at or after the
cutoff (`readingTime >= cutoffTime`). -/
def getDataForPeriod (now hours : ℤ) (st : Store) : List WeatherData :=
  (getHistoricalData st).filter fun reading =>
    match reading.timestamp with
    | none => false
    | some t => decide (cutoffInstant now hours ≤ t)

/-- clearHistoricalData: `localStorage.removeItem(this.STORAGE_KEY)`. -/
def clearHistoricalData (_st : Store) : Store := none

/-- The seven numeric fields of the Partial WeatherData returned by
getAverageForPeriod (the accumulator of its reduce has the same shape). -/
structure WeatherAverages where
  temperature : ℚ
  humidity : ℚ
  pressure : ℚ
  gas : ℚ
  dewPoint : ℚ
  cloudBase : ℚ
  Rain : ℚ
deriving DecidableEq

/-- The reduce step of getAverageForPeriod: add each field of a reading
to the accumulated totals. -/
def addReading (acc : WeatherAverages) (reading : WeatherData) : WeatherAverages :=
  { temperature := acc.temperature + reading.temperature
    humidity := acc.humidity + reading.humidity
    pressure := acc.pressure + reading.pressure
    gas := acc.gas + reading.gas
    dewPoint := acc.dewPoint + reading.dewPoint
    cloudBase := acc.cloudBase + reading.cloudBase
    Rain := acc.Rain + reading.Rain }

/-- getAverageForPeriod: `null` on an empty window, otherwise each
field's total (a left fold from an all-zero accumulator, as
`data.reduce`) divided by the window length. -/
def getAverageForPeriod (now hours : ℤ) (st : Store) : Option WeatherAverages :=
  let data := getDataForPeriod now hours st
  if data.length = 0 then none
  else
    let totals := data.foldl addReading ⟨0, 0, 0, 0, 0, 0, 0⟩
    let count : ℚ := data.length
    some { temperature := totals.temperature / count
           humidity := totals.humidity / count
           pressure := totals.pressure / count
           gas := totals.gas / count
           dewPoint := totals.dewPoint / count
           cloudBase := totals.cloudBase / count
           Rain := totals.Rain / count }

/-- The arithmetic mean of one numeric field over a window, written from
the spec's words (for comparison with what the code computes). -/
def fieldMean (l : List WeatherData) (f : WeatherData → ℚ) : ℚ :=
  (l.map f).sum / (l.length : ℚ)

/-- One client-visible store operation; the read operations carry their
arguments but never write, record carries the instant of its call and
whether its storage write throws. -/
inductive StoreOp where
  | record (now : ℤ) (writeFails : Bool) (data : WeatherData)
  | readAll
  | readWindow (now hours : ℤ)
  | readAverage (now hours : ℤ)
  | clear

/-- The state transition of one operation (reads leave the blob alone,
as in the source they only call localStorage.getItem). -/
def applyOp (st : Store) : StoreOp → Store
  | StoreOp.record now writeFails data => saveWeatherReading now writeFails st data
  | StoreOp.readAll => st
  | StoreOp.readWindow _ _ => st
  | StoreOp.readAverage _ _ => st
  | StoreOp.clear => clearHistoricalData st

/-- Run a sequence of operations from the empty store. -/
def runOps (ops : List StoreOp) : Store := ops.foldl applyOp none

/-- The store invariant of the spec: every persisted reading carries a
timestamp, and the persisted length never exceeds the retention cap. -/
def StoreInv (st : Store) : Prop :=
  (getHistoricalData st).length ≤ MAX_RECORDS ∧
  ∀ r ∈ getHistoricalData st, r.timestamp.isSome = true

/-- A sequence of record() calls, each paired with the instant at which
it runs; every storage write succeeds. -/
def recordSeq (ins : List (ℤ × WeatherData)) (st : Store) : Store :=
  ins.foldl (fun s p => saveWeatherReading p.1 false s p.2) st

/-- A reading whose seven measurements are zero and whose caller-supplied
timestamp is the instant `t` (used for concrete scenarios). -/
def mkTimedReading (t : ℤ) : WeatherData :=
  ⟨0, 0, 0, 0, 0, 0, 0, some t⟩

/-- The spec's overflow scenario: 1010 record() calls whose readings
carry the increasing timestamps 1, 2, ..., 1010. -/
def scenarioInputs : List (ℤ × WeatherData) :=
  (List.range 1010).map fun i => ((0 : ℤ), mkTimedReading (Int.ofNat i + 1))

/-- A two-reading store for the spec's averaging example: temperatures
10 and 20, both taken at instant 0. -/
def pairStore : Store :=
  some [{ mkTimedReading 0 with temperature := 10 },
        { mkTimedReading 0 with temperature := 20 }]

/-- Decidability of the claim-side kept-element condition: the reading
has a timestamp and its instant is at or after the cutoff. -/
instance decSomeAfterCutoff (c : ℤ) (o : Option ℤ) :
    Decidable (∃ t, o = some t ∧ c ≤ t) :=
  match o with
  | none => isFalse (by simp)
  | some t => decidable_of_iff (c ≤ t) (by simp)

/-- A JavaScript number: a finite value (idealised as a rational) or one
of the non-finite values NaN, Infinity, -Infinity — all of which have
typeof "number". -/
inductive JSNum where
  | finite (val : ℚ)
  | nan
  | posInf
  | negInf
deriving DecidableEq

/-- A JavaScript runtime value, as far as the untyped paths of
WeatherService.ts inspect one: primitives, arrays and plain objects
(an object is a key/value list; property lookup takes the first match). -/
inductive JSValue where
  | undef
  | null
  | bool (b : Bool)
  | num (n : JSNum)
  | str (s : String)
  | arr (elems : List JSValue)
  | obj (props : List (String × JSValue))

/-- The typeof operator on the modelled values (arrays and null have
typeof "object", as in JavaScript). -/
def jsTypeof : JSValue → String
  | JSValue.undef => "undefined"
  | JSValue.null => "object"
  | JSValue.bool _ => "boolean"
  | JSValue.num _ => "number"
  | JSValue.str _ => "string"
  | JSValue.arr _ => "object"
  | JSValue.obj _ => "object"

/-- Property access `v.key`: defined on plain objects; a missing key (and
any named property of an array or primitive, which the source never
reads without first passing its object/null guard) is `undefined`. -/
def getProp (v : JSValue) (key : String) : JSValue :=
  match v with
  | JSValue.obj props => (List.lookup key props).getD JSValue.undef
  | _ => JSValue.undef

/-- The test `typeof x === 'number'`. -/
def isNumber : JSValue → Bool
  | JSValue.num _ => true
  | _ => false

/-- isValidWeatherData from WeatherService.ts, clause for clause:
`typeof data === 'object' && data !== null` followed by a typeof-number
check of each of the seven measurement properties. -/
def isValidWeatherData (data : JSValue) : Bool :=
  (jsTypeof data == "object") &&
  (match data with | JSValue.null => false | _ => true) &&
  isNumber (getProp data "temperature") &&
  isNumber (getProp data "humidity") &&
  isNumber (getProp data "pressure") &&
  isNumber (getProp data "gas") &&
  isNumber (getProp data "dewPoint") &&
  isNumber (getProp data "cloudBase") &&
  isNumber (getProp data "Rain")

/-- The seven property names isValidWeatherData requires. -/
def requiredFields : List String :=
  ["temperature", "humidity", "pressure", "gas", "dewPoint", "cloudBase", "Rain"]

/-- The blob under STORAGE_KEY as localStorage.getItem sees it:
`missing` when getItem yields null or a falsy (empty) string, `corrupt`
when the stored text makes JSON.parse throw, `stored v` when the text
parses to the value `v`. -/
inductive StoredBlob where
  | missing
  | corrupt
  | stored (v : JSValue)

/-- getHistoricalData on the untyped path, as the source handles an
arbitrary blob: no blob or a parse error yields [], and the parsed
value is returned exactly when Array.isArray accepts it — its elements
are passed through without any shape check (`JSON.parse(...) as
WeatherData[]` is only a compile-time cast). -/
def getHistoricalDataJS : StoredBlob → List JSValue
  | StoredBlob.missing => []
  | StoredBlob.corrupt => []
  | StoredBlob.stored v =>
    match v with
    | JSValue.arr elems => elems
    | _ => []

/-- A payload whose seven required properties are all non-finite numbers
(NaN and the infinities). -/
def nonFinitePayload : JSValue :=
  JSValue.obj
    [("temperature", JSValue.num JSNum.nan),
     ("humidity", JSValue.num JSNum.nan),
     ("pressure", JSValue.num JSNum.posInf),
     ("gas", JSValue.num JSNum.negInf),
     ("dewPoint", JSValue.num JSNum.nan),
     ("cloudBase", JSValue.num JSNum.posInf),
     ("Rain", JSValue.num JSNum.nan)]

/-- A payload carrying the seven required numeric properties plus an
arbitrary extra property. -/
def extraPropPayload : JSValue :=
  JSValue.obj
    [("temperature", JSValue.num (JSNum.finite 21)),
     ("humidity", JSValue.num (JSNum.finite 55)),
     ("pressure", JSValue.num (JSNum.finite 1013)),
     ("gas", JSValue.num (JSNum.finite 100)),
     ("dewPoint", JSValue.num (JSNum.finite 12)),
     ("cloudBase", JSValue.num (JSNum.finite 500)),
     ("Rain", JSValue.num (JSNum.finite 0)),
     ("unexpected", JSValue.str "extra")]

/-- A well-shaped payload with finite measurements. -/
def goodPayload : JSValue :=
  JSValue.obj
    [("temperature", JSValue.num (JSNum.finite 18)),
     ("humidity", JSValue.num (JSNum.finite 70)),
     ("pressure", JSValue.num (JSNum.finite 1008)),
     ("gas", JSValue.num (JSNum.finite 95)),
     ("dewPoint", JSValue.num (JSNum.finite 11)),
     ("cloudBase", JSValue.num (JSNum.finite 450)),
     ("Rain", JSValue.num (JSNum.finite 2))]

/-- C9: for every store state, clear() removes the persisted blob
entirely, and a subsequent all() returns the empty sequence. -/
theorem clear_removes_blob_then_all_empty (st : Store) :
    clearHistoricalData st = none ∧ getHistoricalData (clearHistoricalData st) = [] :=
  ⟨rfl, rfl⟩

/-- C7: when the serialization or storage-write step of record() fails,
the inner attempt does raise an error, but saveWeatherReading catches
it (it is total, returning a plain Store rather than an Except) and the
persisted state is exactly what it was before the call. -/
theorem save_write_failure_silent_no_partial_write
    (now : ℤ) (st : Store) (data : WeatherData) :
    saveAttempt now true st data = Except.error "storage write failed" ∧
    saveWeatherReading now true st data = st :=
  ⟨rfl, rfl⟩

/-- C2: record(r) followed by all() yields the input with its timestamp
populated (r's own when supplied, otherwise the instant of the call) at
the head, followed by the previous sequence truncated to the cap minus
one entries from the tail (which is the whole previous sequence
whenever the new length stays within the cap). -/
theorem record_then_all_head_and_tail
    (now : ℤ) (st : Store) (r : WeatherData) :
    getHistoricalData (saveWeatherReading now false st r) =
      { r with timestamp := some (r.timestamp.getD now) } ::
        (getHistoricalData st).take (MAX_RECORDS - 1) := by
  simp [saveWeatherReading, saveAttempt, getHistoricalData, stampTimestamp, MAX_RECORDS,
    List.take_succ_cons]

/-- C3: forWindow(hours) is a subsequence of all() (order preserved),
and it keeps exactly the readings that have a timestamp whose instant
is at or after the cutoff (the current instant minus `hours` hours);
readings lacking a timestamp are excluded.  The second conjunct states
the kept-element condition in the spec's words. -/
theorem window_is_cutoff_filtered_subsequence (now hours : ℤ) (st : Store) :
    (getDataForPeriod now hours st).Sublist (getHistoricalData st) ∧
    getDataForPeriod now hours st =
      (getHistoricalData st).filter
        (fun r : WeatherData =>
          decide (∃ t, r.timestamp = some t ∧ cutoffInstant now hours ≤ t)) := by
  constructor
  · exact List.filter_sublist _
  · unfold getDataForPeriod
    apply List.filter_congr
    intro r _
    cases h : r.timestamp with
    | none => simp [h]
    | some t => simp [h]

/-- The reduce of getAverageForPeriod computes, in each field, that
field's sum over the list added to the accumulator's field. -/
theorem foldl_addReading_spec (l : List WeatherData) (acc : WeatherAverages) :
    l.foldl addReading acc =
      { temperature := acc.temperature + (l.map (fun r => r.temperature)).sum
        humidity := acc.humidity + (l.map (fun r => r.humidity)).sum
        pressure := acc.pressure + (l.map (fun r => r.pressure)).sum
        gas := acc.gas + (l.map (fun r => r.gas)).sum
        dewPoint := acc.dewPoint + (l.map (fun r => r.dewPoint)).sum
        cloudBase := acc.cloudBase + (l.map (fun r => r.cloudBase)).sum
        Rain := acc.Rain + (l.map (fun r => r.Rain)).sum } := by
  induction l generalizing acc with
  | nil => simp
  | cons x xs ih => simp [List.foldl_cons, ih, addReading, add_assoc]

/-- C4: whenever forWindow(hours) is non-empty, average(hours) returns
the arithmetic mean of each of the seven numeric fields over the
window; on an empty window it returns the distinguished no-result value
`none`, which no all-zero `some` average can equal. -/
theorem average_empty_none_else_field_means (now hours : ℤ) (st : Store) :
    (getDataForPeriod now hours st = [] → getAverageForPeriod now hours st = none) ∧
    (getDataForPeriod now hours st ≠ [] →
      getAverageForPeriod now hours st = some
        { temperature := fieldMean (getDataForPeriod now hours st) (fun r => r.temperature)
          humidity := fieldMean (getDataForPeriod now hours st) (fun r => r.humidity)
          pressure := fieldMean (getDataForPeriod now hours st) (fun r => r.pressure)
          gas := fieldMean (getDataForPeriod now hours st) (fun r => r.gas)
          dewPoint := fieldMean (getDataForPeriod now hours st) (fun r => r.dewPoint)
          cloudBase := fieldMean (getDataForPeriod now hours st) (fun r => r.cloudBase)
          Rain := fieldMean (getDataForPeriod now hours st) (fun r => r.Rain) }) := by
  constructor
  · intro h
    simp [getAverageForPeriod, h]
  · intro h
    have hlen : (getDataForPeriod now hours st).length ≠ 0 := by
      simpa [List.length_eq_zero] using h
    simp [getAverageForPeriod, hlen, foldl_addReading_spec, fieldMean]

/-- Every single operation preserves the store invariant. -/
theorem storeInv_applyOp (st : Store) (op : StoreOp) (h : StoreInv st) :
    StoreInv (applyOp st op) := by
  cases op with
  | record now writeFails data =>
    cases writeFails with
    | true => exact h
    | false =>
      constructor
      · exact List.length_take_le _ _
      · intro r hr
        have hr2 := List.mem_of_mem_take hr
        rcases List.mem_cons.mp hr2 with h1 | h2
        · subst h1; rfl
        · exact h.2 r h2
  | readAll => exact h
  | readWindow now hours => exact h
  | readAverage now hours => exact h
  | clear => exact ⟨by simp [applyOp, clearHistoricalData, getHistoricalData, MAX_RECORDS], by
      simp [applyOp, clearHistoricalData, getHistoricalData]⟩

/-- The invariant holds after any run from an invariant-satisfying
start state. -/
theorem storeInv_foldl (ops : List StoreOp) (st : Store) (h : StoreInv st) :
    StoreInv (ops.foldl applyOp st) := by
  induction ops generalizing st with
  | nil => exact h
  | cons op rest ih => exact ih (applyOp st op) (storeInv_applyOp st op h)

/-- C6: starting from the empty store, every sequence of
record/all/forWindow/average/clear operations leaves a state in which
each persisted reading has a populated timestamp and the persisted
length is at most the retention cap of 1008. -/
theorem reachable_states_capped_and_timestamped (ops : List StoreOp) :
    (getHistoricalData (runOps ops)).length ≤ MAX_RECORDS ∧
    ∀ r ∈ getHistoricalData (runOps ops), r.timestamp.isSome = true :=
  storeInv_foldl ops none ⟨by simp [getHistoricalData, MAX_RECORDS], by
    simp [getHistoricalData]⟩

/-- Truncating before an append then truncating again is the same as one
final truncation. -/
theorem take_append_take {α : Type} (A B : List α) (n : Nat) :
    (A ++ B.take n).take n = (A ++ B).take n := by
  rw [List.take_append_eq_append_take, List.take_append_eq_append_take, List.take_take,
    Nat.min_eq_left (Nat.sub_le n A.length)]

/-- Running a sequence of successful record() calls keeps, of the
stamped inputs in reverse arrival order followed by whatever was stored
before, the first MAX_RECORDS entries. -/
theorem recordSeq_all (ins : List (ℤ × WeatherData)) (st : Store)
    (h : (getHistoricalData st).length ≤ MAX_RECORDS) :
    getHistoricalData (recordSeq ins st) =
      ((ins.map (fun p => stampTimestamp p.1 p.2)).reverse ++ getHistoricalData st).take
        MAX_RECORDS := by
  induction ins generalizing st with
  | nil =>
    simp only [recordSeq, List.foldl_nil, List.map_nil, List.reverse_nil, List.nil_append]
    exact (List.take_of_length_le h).symm
  | cons p rest ih =>
    have hstep : saveWeatherReading p.1 false st p.2 =
        some ((stampTimestamp p.1 p.2 :: getHistoricalData st).take MAX_RECORDS) := rfl
    have hlen : (getHistoricalData (saveWeatherReading p.1 false st p.2)).length ≤
        MAX_RECORDS := by
      rw [hstep]
      exact List.length_take_le _ _
    have ih2 := ih (saveWeatherReading p.1 false st p.2) hlen
    calc getHistoricalData (recordSeq (p :: rest) st)
        = getHistoricalData (recordSeq rest (saveWeatherReading p.1 false st p.2)) := rfl
      _ = ((rest.map (fun q => stampTimestamp q.1 q.2)).reverse ++
            getHistoricalData (saveWeatherReading p.1 false st p.2)).take MAX_RECORDS := ih2
      _ = ((rest.map (fun q => stampTimestamp q.1 q.2)).reverse ++
            (stampTimestamp p.1 p.2 :: getHistoricalData st).take MAX_RECORDS).take
              MAX_RECORDS := by rw [hstep]; rfl
      _ = ((rest.map (fun q => stampTimestamp q.1 q.2)).reverse ++
            (stampTimestamp p.1 p.2 :: getHistoricalData st)).take MAX_RECORDS :=
            take_append_take _ _ _
      _ = (((p :: rest).map (fun q => stampTimestamp q.1 q.2)).reverse ++
            getHistoricalData st).take MAX_RECORDS := by
            simp [List.reverse_cons, List.append_assoc]

/-- C1: after any sequence of more than MAX_RECORDS record() calls from
the empty store, all() holds exactly MAX_RECORDS (1008) entries, namely
the most recently recorded ones in newest-first order (the reversed
arrival order of the stamped inputs, truncated to the cap). -/
theorem record_over_cap_keeps_latest_cap (ins : List (ℤ × WeatherData))
    (h : MAX_RECORDS < ins.length) :
    getHistoricalData (recordSeq ins none) =
      ((ins.map (fun p => stampTimestamp p.1 p.2)).reverse).take MAX_RECORDS ∧
    (getHistoricalData (recordSeq ins none)).length = MAX_RECORDS := by
  have h0 : (getHistoricalData (none : Store)).length ≤ MAX_RECORDS := by
    simp [getHistoricalData]
  have heq := recordSeq_all ins none h0
  rw [show getHistoricalData (none : Store) = [] from rfl, List.append_nil] at heq
  refine ⟨heq, ?_⟩
  rw [heq, List.length_take, List.length_reverse, List.length_map]
  exact Nat.min_eq_left (Nat.le_of_lt h)

set_option maxRecDepth 100000 in
/-- Witness for C1, the spec's scenario: 1010 recorded readings with
increasing timestamps 1..1010 leave exactly 1008 entries, the head
carrying the 1010th reading's timestamp and entry 1007 the 3rd's. -/
theorem record_over_cap_keeps_latest_cap_witness :
    MAX_RECORDS < scenarioInputs.length ∧
    (getHistoricalData (recordSeq scenarioInputs none)).length = 1008 ∧
    ((getHistoricalData (recordSeq scenarioInputs none)).get? 0).map
      (fun r => r.timestamp) = some (some 1010) ∧
    ((getHistoricalData (recordSeq scenarioInputs none)).get? 1007).map
      (fun r => r.timestamp) = some (some 3) := by
  have hlen : MAX_RECORDS < scenarioInputs.length := by
    simp [scenarioInputs, MAX_RECORDS]
  obtain ⟨heq, hcap⟩ := record_over_cap_keeps_latest_cap scenarioInputs hlen
  refine ⟨hlen, hcap, ?_, ?_⟩
  · rw [heq]; rfl
  · rw [heq]; rfl

/-- Counterexample to C5 as stated: a stored blob that is valid JSON but
is not an array of Reading records — here the array whose one element
is the number 1 — is returned by all() as-is rather than discarded; the
element fails the service's own Reading validation. -/
theorem nonreading_array_blob_returned_not_discarded :
    getHistoricalDataJS (StoredBlob.stored (JSValue.arr [JSValue.num (JSNum.finite 1)])) =
      [JSValue.num (JSNum.finite 1)] ∧
    isValidWeatherData (JSValue.num (JSNum.finite 1)) = false ∧
    getHistoricalDataJS (StoredBlob.stored (JSValue.arr [JSValue.num (JSNum.finite 1)])) ≠
      [] := by
  refine ⟨rfl, rfl, ?_⟩
  intro h
  simp [getHistoricalDataJS] at h

/-- C5 as amended: all() returns the empty sequence, raising nothing,
whenever no blob is stored, the blob is corrupt (JSON.parse throws), or
the blob parses to a non-array value; a blob parsing to an array is
returned whole, its elements unvalidated. -/
theorem all_empty_iff_blob_missing_corrupt_or_nonarray (b : StoredBlob) :
    ((b = StoredBlob.missing ∨ b = StoredBlob.corrupt ∨
        ∃ v, b = StoredBlob.stored v ∧ ∀ elems, v ≠ JSValue.arr elems) →
      getHistoricalDataJS b = []) ∧
    (∀ elems, b = StoredBlob.stored (JSValue.arr elems) →
      getHistoricalDataJS b = elems) := by
  constructor
  · rintro (rfl | rfl | ⟨v, rfl, hv⟩)
    · rfl
    · rfl
    · cases v with
      | arr elems => exact absurd rfl (hv elems)
      | undef => rfl
      | null => rfl
      | bool b2 => rfl
      | num n => rfl
      | str s => rfl
      | obj props => rfl
  · rintro elems rfl
    rfl

/-- Witness for C5 as amended: a corrupt blob and a blob holding the
JSON value true both read back as the empty sequence. -/
theorem all_empty_iff_blob_missing_corrupt_or_nonarray_witness :
    getHistoricalDataJS StoredBlob.corrupt = [] ∧
    getHistoricalDataJS (StoredBlob.stored (JSValue.bool true)) = [] :=
  ⟨(all_empty_iff_blob_missing_corrupt_or_nonarray StoredBlob.corrupt).1
      (Or.inr (Or.inl rfl)),
   (all_empty_iff_blob_missing_corrupt_or_nonarray
      (StoredBlob.stored (JSValue.bool true))).1
      (Or.inr (Or.inr ⟨JSValue.bool true, rfl, fun _ h => nomatch h⟩))⟩

/-- A value passes the typeof-number test exactly when it is a number. -/
theorem isNumber_iff (v : JSValue) : isNumber v = true ↔ ∃ n, v = JSValue.num n := by
  cases v <;> simp [isNumber]

/-- C8: the validation predicate accepts a payload exactly when it is an
object carrying all seven measurement properties with numeric values;
every other shape (missing properties, non-numeric values, primitives,
null, arrays) is rejected. -/
theorem validation_accepts_exactly_numeric_field_objects (v : JSValue) :
    isValidWeatherData v = true ↔
      ((∃ props, v = JSValue.obj props) ∧
        ∀ k ∈ requiredFields, ∃ n, getProp v k = JSValue.num n) := by
  cases v with
  | obj props =>
    have hval : isValidWeatherData (JSValue.obj props) =
        (isNumber (getProp (JSValue.obj props) "temperature") &&
         isNumber (getProp (JSValue.obj props) "humidity") &&
         isNumber (getProp (JSValue.obj props) "pressure") &&
         isNumber (getProp (JSValue.obj props) "gas") &&
         isNumber (getProp (JSValue.obj props) "dewPoint") &&
         isNumber (getProp (JSValue.obj props) "cloudBase") &&
         isNumber (getProp (JSValue.obj props) "Rain")) := by
      simp [isValidWeatherData, jsTypeof]
    rw [hval]
    simp only [Bool.and_eq_true, isNumber_iff, requiredFields, List.mem_cons,
      List.not_mem_nil, or_false]
    constructor
    · rintro ⟨⟨⟨⟨⟨⟨h1, h2⟩, h3⟩, h4⟩, h5⟩, h6⟩, h7⟩
      refine ⟨⟨props, rfl⟩, ?_⟩
      rintro k (rfl | rfl | rfl | rfl | rfl | rfl | rfl)
      exacts [h1, h2, h3, h4, h5, h6, h7]
    · rintro ⟨-, hall⟩
      exact ⟨⟨⟨⟨⟨⟨hall "temperature" (Or.inl rfl),
        hall "humidity" (Or.inr (Or.inl rfl))⟩,
        hall "pressure" (Or.inr (Or.inr (Or.inl rfl)))⟩,
        hall "gas" (Or.inr (Or.inr (Or.inr (Or.inl rfl))))⟩,
        hall "dewPoint" (Or.inr (Or.inr (Or.inr (Or.inr (Or.inl rfl)))))⟩,
        hall "cloudBase" (Or.inr (Or.inr (Or.inr (Or.inr (Or.inr (Or.inl rfl))))))⟩,
        hall "Rain" (Or.inr (Or.inr (Or.inr (Or.inr (Or.inr (Or.inr rfl))))))⟩
  | undef =>
    simp [show isValidWeatherData JSValue.undef = false from rfl]
  | null =>
    simp [show isValidWeatherData JSValue.null = false from rfl]
  | bool b =>
    simp [show isValidWeatherData (JSValue.bool b) = false from rfl]
  | num n =>
    simp [show isValidWeatherData (JSValue.num n) = false from rfl]
  | str s =>
    simp [show isValidWeatherData (JSValue.str s) = false from rfl]
  | arr elems =>
    simp [show isValidWeatherData (JSValue.arr elems) = false from rfl, getProp,
      requiredFields]

/-- Witness for C8: the characterisation applied to a concrete
well-shaped accepted payload yields its object shape and its seven
numeric properties. -/
theorem validation_accepts_exactly_numeric_field_objects_witness :
    (∃ props, goodPayload = JSValue.obj props) ∧
    ∀ k ∈ requiredFields, ∃ n, getProp goodPayload k = JSValue.num n :=
  (validation_accepts_exactly_numeric_field_objects goodPayload).mp rfl

/-- C10: validation does not require finiteness or forbid extra
properties: a payload whose seven required fields are NaN or infinite
numbers is accepted, and so is a payload carrying an arbitrary extra
property beyond the required seven. -/
theorem validation_accepts_nonfinite_numbers_and_extra_props :
    isValidWeatherData nonFinitePayload = true ∧
    getProp nonFinitePayload "temperature" = JSValue.num JSNum.nan ∧
    getProp nonFinitePayload "pressure" = JSValue.num JSNum.posInf ∧
    getProp nonFinitePayload "gas" = JSValue.num JSNum.negInf ∧
    isValidWeatherData extraPropPayload = true ∧
    getProp extraPropPayload "unexpected" = JSValue.str "extra" :=
  ⟨rfl, rfl, rfl, rfl, rfl, rfl⟩

/-- Witness for C4, the spec's example: over a 24-hour window holding
temperatures 10 and 20, average() reports temperature 15; the window is
non-empty so the no-result branch is not taken. -/
theorem average_empty_none_else_field_means_witness :
    getDataForPeriod 0 24 pairStore ≠ [] ∧
    (getAverageForPeriod 0 24 pairStore).map (fun a => a.temperature) = some 15 := by
  have h := (average_empty_none_else_field_means 0 24 pairStore).2 (by decide)
  have hw : getDataForPeriod 0 24 pairStore =
      [{ mkTimedReading 0 with temperature := 10 },
       { mkTimedReading 0 with temperature := 20 }] := by decide
  refine ⟨by decide, ?_⟩
  rw [h]
  simp [hw, fieldMean, mkTimedReading]
  norm_num
